import Mathlib

/-!
Shallow embedding of the `Galaxy` and `HyperGalaxy` classes of
`autoastro/galaxy/galaxy.py` (the galaxy lensing-quantity aggregation
engine).  Real-valued numerics are modelled over `ℚ`.  The external light
and mass profiles are modelled as records of pointwise grid-evaluation
functions together with a parameter list standing for their value
identity (profiles compare by value).  The external grid mapping
services (`array_from_sub_array_1d`, `array_from_sub_array_2d`,
`grid_from_sub_grid_1d`) are reshape services of the grid interface and
are modelled as value-preserving (identity on the 1d value sequence /
row-major flatten of a 2d layout).  The floating-point square root used
by `x ** 0.5` has no computable rational counterpart, so it is carried as
an explicit function parameter `sqrtFn` of the definitions that need it.
-/

set_option autoImplicit false

/-- External pixelization object attached to a galaxy, compared by value. -/
structure Pixelization where
  tag : ℚ
deriving DecidableEq

/-- External regularization object attached to a galaxy, compared by value. -/
structure Regularization where
  tag : ℚ
deriving DecidableEq

/-- The hyper-galaxy noise-scaling model: three numeric hyper-parameters.
The process-wide counter `component_number` never enters `__eq__` nor any
computation modelled here and is omitted, so structural equality of this
record coincides with the source's value equality on the three parameters. -/
structure HyperGalaxy where
  contribution_factor : ℚ
  noise_factor : ℚ
  noise_power : ℚ
deriving DecidableEq

/-- External light profile: pointwise grid-evaluation function for its
image, analytic luminosity integrals, and the parameter list that
determines its value identity. -/
structure LightProfile where
  image_fn : ℚ × ℚ → ℚ
  luminosity_within_circle_fn : ℚ → ℚ
  luminosity_within_ellipse_fn : ℚ → ℚ
  params : List ℚ

/-- External mass profile: pointwise grid-evaluation functions for its
convergence, potential and (y,x) deflection angles, analytic integral
quantities, and the parameter list that determines its value identity. -/
structure MassProfile where
  convergence_fn : ℚ × ℚ → ℚ
  potential_fn : ℚ × ℚ → ℚ
  deflections_fn : ℚ × ℚ → ℚ × ℚ
  mass_within_circle_fn : ℚ → ℚ
  mass_within_ellipse_fn : ℚ → ℚ
  einstein_radius_val : ℚ
  einstein_mass_val : ℚ
  params : List ℚ

/-- One value of the open-ended `**kwargs` attribute bag of
`Galaxy.__init__`: a light profile, a mass profile, or arbitrary scalar
metadata.  The bag keeps insertion order; attribute names play no role in
any of the claims and are dropped. -/
inductive GalaxyComponent where
  | light : LightProfile → GalaxyComponent
  | mass : MassProfile → GalaxyComponent
  | scalar : ℚ → GalaxyComponent

/-- The `Galaxy` data model: redshift, the optional pixelization /
regularization / hyper-galaxy attributes, and the ordered attribute bag
from which the light- and mass-profile lists are derived. -/
structure Galaxy where
  redshift : ℚ
  pixelization : Option Pixelization
  regularization : Option Regularization
  hyper_galaxy : Option HyperGalaxy
  components : List GalaxyComponent

/-- The domain-specific configuration error raised by `Galaxy.__init__`
(`exc.GalaxyException`). -/
inductive GalaxyException where
  | pixelizationWithoutRegularization
  | regularizationWithoutPixelization
deriving DecidableEq

/-- Embedding of `Galaxy.__init__`: construction fails with a
`GalaxyException` when a pixelization is supplied without a
regularization or vice versa, in the source's check order. -/
def Galaxy.make (redshift : ℚ) (pixelization : Option Pixelization)
    (regularization : Option Regularization)
    (hyper_galaxy : Option HyperGalaxy) (components : List GalaxyComponent) :
    Except GalaxyException Galaxy :=
  if pixelization.isSome ∧ regularization.isNone then
    .error .pixelizationWithoutRegularization
  else if pixelization.isNone ∧ regularization.isSome then
    .error .regularizationWithoutPixelization
  else
    .ok ⟨redshift, pixelization, regularization, hyper_galaxy, components⟩

/-- Embedding of the `Galaxy.light_profiles` property: the attached
components that satisfy the light-profile capability, in insertion order. -/
def Galaxy.light_profiles (g : Galaxy) : List LightProfile :=
  g.components.filterMap fun c =>
    match c with
    | .light lp => some lp
    | _ => none

/-- Embedding of the `Galaxy.mass_profiles` property: the attached
components that satisfy the mass-profile capability, in insertion order. -/
def Galaxy.mass_profiles (g : Galaxy) : List MassProfile :=
  g.components.filterMap fun c =>
    match c with
    | .mass mp => some mp
    | _ => none

/-- Embedding of the `Galaxy.has_light_profile` property. -/
def Galaxy.has_light_profile (g : Galaxy) : Bool :=
  decide (0 < g.light_profiles.length)

/-- Embedding of the `Galaxy.has_mass_profile` property. -/
def Galaxy.has_mass_profile (g : Galaxy) : Bool :=
  decide (0 < g.mass_profiles.length)

/-- Value equality of two light-profile lists, element by element
(Python `list.__eq__` over profiles that compare by value). -/
def lightListBeq : List LightProfile → List LightProfile → Bool
  | [], [] => true
  | a :: as, b :: bs => decide (a.params = b.params) && lightListBeq as bs
  | _, _ => false

/-- Value equality of two mass-profile lists, element by element. -/
def massListBeq : List MassProfile → List MassProfile → Bool
  | [], [] => true
  | a :: as, b :: bs => decide (a.params = b.params) && massListBeq as bs
  | _, _ => false

/-- Embedding of `Galaxy.__eq__` applied to another `Galaxy` (where the
`isinstance` conjunct is true): the conjunction over pixelization,
redshift, hyper_galaxy and the two profile lists — the source compares
these five and does not compare `regularization`. -/
def galaxyEqB (g o : Galaxy) : Bool :=
  decide (g.pixelization = o.pixelization)
    && decide (g.redshift = o.redshift)
    && decide (g.hyper_galaxy = o.hyper_galaxy)
    && lightListBeq g.light_profiles o.light_profiles
    && massListBeq g.mass_profiles o.mass_profiles

/-- The Python `AttributeError` raised when an attribute is looked up on
an object that lacks it. -/
inductive PyError where
  | attributeError
deriving DecidableEq

/-- A right operand of `Galaxy.__eq__`: either a `Galaxy`, or an
arbitrary non-Galaxy value that lacks the compared attributes. -/
inductive PyObj where
  | galaxy : Galaxy → PyObj
  | nonGalaxy : ℚ → PyObj

/-- Attribute lookup `other.pixelization`; raises on a non-Galaxy. -/
def PyObj.getPixelization : PyObj → Except PyError (Option Pixelization)
  | .galaxy g => .ok g.pixelization
  | .nonGalaxy _ => .error .attributeError

/-- Attribute lookup `other.redshift`; raises on a non-Galaxy. -/
def PyObj.getRedshift : PyObj → Except PyError ℚ
  | .galaxy g => .ok g.redshift
  | .nonGalaxy _ => .error .attributeError

/-- Attribute lookup `other.hyper_galaxy`; raises on a non-Galaxy. -/
def PyObj.getHyperGalaxy : PyObj → Except PyError (Option HyperGalaxy)
  | .galaxy g => .ok g.hyper_galaxy
  | .nonGalaxy _ => .error .attributeError

/-- Attribute lookup `other.light_profiles`; raises on a non-Galaxy. -/
def PyObj.getLightProfiles : PyObj → Except PyError (List LightProfile)
  | .galaxy g => .ok g.light_profiles
  | .nonGalaxy _ => .error .attributeError

/-- Attribute lookup `other.mass_profiles`; raises on a non-Galaxy. -/
def PyObj.getMassProfiles : PyObj → Except PyError (List MassProfile)
  | .galaxy g => .ok g.mass_profiles
  | .nonGalaxy _ => .error .attributeError

/-- Full embedding of `Galaxy.__eq__(self, other)`: the source builds a
tuple of five comparisons and passes it to `all`, so every operand is
evaluated eagerly before the conjunction; an attribute access on a
non-Galaxy operand therefore raises before `all` runs. -/
def galaxyEqDunder (g : Galaxy) (other : PyObj) : Except PyError Bool := do
  let isG : Bool := match other with | .galaxy _ => true | .nonGalaxy _ => false
  let opix ← other.getPixelization
  let ored ← other.getRedshift
  let ohg ← other.getHyperGalaxy
  let olps ← other.getLightProfiles
  let omps ← other.getMassProfiles
  pure (isG && decide (g.pixelization = opix) && decide (g.redshift = ored)
    && decide (g.hyper_galaxy = ohg) && lightListBeq g.light_profiles olps
    && massListBeq g.mass_profiles omps)

/-- Elementwise sum of two scalar fields (NumPy array addition). -/
def addField : List ℚ → List ℚ → List ℚ :=
  List.zipWith (· + ·)

/-- Elementwise sum of two (y,x) vector fields. -/
def addField2 : List (ℚ × ℚ) → List (ℚ × ℚ) → List (ℚ × ℚ) :=
  List.zipWith fun a b => (a.1 + b.1, a.2 + b.2)

/-- Python `sum` over a list of same-length NumPy arrays (the scalar
start value 0 broadcasts to the zero field of the grid's length). -/
def sumFields (pts : List (ℚ × ℚ)) (fields : List (List ℚ)) : List ℚ :=
  fields.foldl addField (pts.map fun _ => 0)

/-- Python `sum` over a list of same-length (y,x) vector fields. -/
def sumFields2 (pts : List (ℚ × ℚ)) (fields : List (List (ℚ × ℚ))) :
    List (ℚ × ℚ) :=
  fields.foldl addField2 (pts.map fun _ => ((0 : ℚ), (0 : ℚ)))

/-- Embedding of `Galaxy.profile_image_from_grid`: the summed image of
all light profiles over the grid's 1d coordinate sequence, or a zero
field of the grid's length (`np.zeros((grid.shape[0],))`) when the galaxy
has no light profile. -/
def Galaxy.profile_image_from_grid (g : Galaxy) (pts : List (ℚ × ℚ)) :
    List ℚ :=
  if g.has_light_profile then
    sumFields pts (g.light_profiles.map fun p => pts.map p.image_fn)
  else
    pts.map fun _ => 0

/-- Embedding of `Galaxy.convergence_from_grid`: summed convergence of
the mass profiles, with the same zero-field fallback. -/
def Galaxy.convergence_from_grid (g : Galaxy) (pts : List (ℚ × ℚ)) :
    List ℚ :=
  if g.has_mass_profile then
    sumFields pts (g.mass_profiles.map fun p => pts.map p.convergence_fn)
  else
    pts.map fun _ => 0

/-- Embedding of `Galaxy.potential_from_grid`: summed potential of the
mass profiles, with the same zero-field fallback. -/
def Galaxy.potential_from_grid (g : Galaxy) (pts : List (ℚ × ℚ)) :
    List ℚ :=
  if g.has_mass_profile then
    sumFields pts (g.mass_profiles.map fun p => pts.map p.potential_fn)
  else
    pts.map fun _ => 0

/-- Embedding of `Galaxy.deflections_from_grid`: summed (y,x) deflection
angles of the mass profiles, or the all-zero vector field
(`np.full((grid.shape[0], 2), 0.0)`) when the galaxy has no mass profile. -/
def Galaxy.deflections_from_grid (g : Galaxy) (pts : List (ℚ × ℚ)) :
    List (ℚ × ℚ) :=
  if g.has_mass_profile then
    sumFields2 pts (g.mass_profiles.map fun p => pts.map p.deflections_fn)
  else
    pts.map fun _ => ((0 : ℚ), (0 : ℚ))

/-- Embedding of `Galaxy.luminosity_within_circle_in_units`: the summed
per-profile luminosity, or Python's `None` (the not-applicable sentinel)
when the galaxy has no light profile. -/
def Galaxy.luminosity_within_circle_in_units (g : Galaxy) (radius : ℚ) :
    Option ℚ :=
  if g.has_light_profile then
    some ((g.light_profiles.map fun p =>
      p.luminosity_within_circle_fn radius).sum)
  else
    none

/-- Embedding of `Galaxy.luminosity_within_ellipse_in_units`, with the
same `None` sentinel. -/
def Galaxy.luminosity_within_ellipse_in_units (g : Galaxy)
    (major_axis : ℚ) : Option ℚ :=
  if g.has_light_profile then
    some ((g.light_profiles.map fun p =>
      p.luminosity_within_ellipse_fn major_axis).sum)
  else
    none

/-- Embedding of `Galaxy.mass_within_circle_in_units`: the summed
per-profile mass, or Python's `None` when the galaxy has no mass profile. -/
def Galaxy.mass_within_circle_in_units (g : Galaxy) (radius : ℚ) :
    Option ℚ :=
  if g.has_mass_profile then
    some ((g.mass_profiles.map fun p => p.mass_within_circle_fn radius).sum)
  else
    none

/-- Embedding of `Galaxy.mass_within_ellipse_in_units`, with the same
`None` sentinel. -/
def Galaxy.mass_within_ellipse_in_units (g : Galaxy) (major_axis : ℚ) :
    Option ℚ :=
  if g.has_mass_profile then
    some ((g.mass_profiles.map fun p => p.mass_within_ellipse_fn major_axis).sum)
  else
    none

/-- Embedding of `Galaxy.einstein_radius_in_units`, with the same `None`
sentinel. -/
def Galaxy.einstein_radius_in_units (g : Galaxy) : Option ℚ :=
  if g.has_mass_profile then
    some ((g.mass_profiles.map fun p => p.einstein_radius_val).sum)
  else
    none

/-- Embedding of `Galaxy.einstein_mass_in_units`, with the same `None`
sentinel. -/
def Galaxy.einstein_mass_in_units (g : Galaxy) : Option ℚ :=
  if g.has_mass_profile then
    some ((g.mass_profiles.map fun p => p.einstein_mass_val).sum)
  else
    none

/-- The evaluation grid: a logical 2D layout of (y,x) physical
coordinates (`in_2d[i][j] = coord i j`), together with the external
pixel-to-arcsec coordinate-transform service
(`geometry.grid_arcsec_from_grid_pixels_1d_for_marching_squares`), which
takes a traced pixel-space contour and the traced 2d shape. -/
structure Grid where
  rows : ℕ
  cols : ℕ
  coord : ℕ → ℕ → ℚ × ℚ
  pixToArcsec : List (ℚ × ℚ) → ℕ × ℕ → List (ℚ × ℚ)

/-- The x-coordinate values of the grid's first row: `grid.in_2d[0, :, 1]`. -/
def Grid.xs (grid : Grid) (j : ℕ) : ℚ :=
  (grid.coord 0 j).2

/-- The y-coordinate values of the grid's first column: `grid.in_2d[:, 0, 0]`. -/
def Grid.ys (grid : Grid) (i : ℕ) : ℚ :=
  (grid.coord i 0).1

/-- The grid's ordered 1d coordinate sequence: the row-major flatten of
its 2d layout. -/
def Grid.in_1d (grid : Grid) : List (ℚ × ℚ) :=
  (List.range (grid.rows * grid.cols)).map fun k =>
    grid.coord (k / grid.cols) (k % grid.cols)

/-- The (y,x) deflection field of the galaxy laid out on the grid's
native 2D layout: entry (i,j) of `deflections_from_grid(grid).in_2d`. -/
def Galaxy.deflections_in_2d (g : Galaxy) (grid : Grid) (i j : ℕ) : ℚ × ℚ :=
  (g.deflections_from_grid grid.in_1d).getD (i * grid.cols + j) (0, 0)

/-- Embedding of `np.gradient(F, X)` on a 1d array of length `n` with
explicit coordinate values `X` (default `edge_order=1`): first-order
one-sided differences at the two edges, and NumPy's second-order
non-uniform central-difference formula at interior points. -/
def npGradient (F X : ℕ → ℚ) (n j : ℕ) : ℚ :=
  if n ≤ 1 then 0
  else if j = 0 then (F 1 - F 0) / (X 1 - X 0)
  else if j = n - 1 then (F (n - 1) - F (n - 2)) / (X (n - 1) - X (n - 2))
  else
    (X j - X (j - 1)) ^ 2 * F (j + 1)
        + ((X (j + 1) - X j) ^ 2 - (X j - X (j - 1)) ^ 2) * F j
        - (X (j + 1) - X j) ^ 2 * F (j - 1)
      |> (· / ((X j - X (j - 1)) * (X (j + 1) - X j)
            * ((X (j + 1) - X j) + (X j - X (j - 1)))))

/-- Stated from the specification's words: the central-difference
gradient of a field against the actual coordinate values of the axis —
`(F (j+1) - F (j-1)) / (X (j+1) - X (j-1))` at interior points, one-sided
at the two edges. -/
def specCentralDiff (F X : ℕ → ℚ) (n j : ℕ) : ℚ :=
  if n ≤ 1 then 0
  else if j = 0 then (F 1 - F 0) / (X 1 - X 0)
  else if j = n - 1 then (F (n - 1) - F (n - 2)) / (X (n - 1) - X (n - 2))
  else (F (j + 1) - F (j - 1)) / (X (j + 1) - X (j - 1))

/-- Row-major flatten of a 2d scalar field laid out on the grid
(`mapping.array_from_sub_array_2d`, value-preserving). -/
def Grid.flatten2d (grid : Grid) (f : ℕ → ℕ → ℚ) : List ℚ :=
  (List.range (grid.rows * grid.cols)).map fun k =>
    f (k / grid.cols) (k % grid.cols)

/-- Entry (i,j) of `Galaxy.jacobian_a11_from_grid`:
`1 - np.gradient(deflections.in_2d[:, :, 1], grid.in_2d[0, :, 1], axis=1)`. -/
def Galaxy.jacobian_a11_2d (g : Galaxy) (grid : Grid) (i j : ℕ) : ℚ :=
  1 - npGradient (fun k => (g.deflections_in_2d grid i k).2) grid.xs grid.cols j

/-- Entry (i,j) of `Galaxy.jacobian_a12_from_grid`:
`-np.gradient(deflections.in_2d[:, :, 1], grid.in_2d[:, 0, 0], axis=0)`. -/
def Galaxy.jacobian_a12_2d (g : Galaxy) (grid : Grid) (i j : ℕ) : ℚ :=
  -(npGradient (fun k => (g.deflections_in_2d grid k j).2) grid.ys grid.rows i)

/-- Entry (i,j) of `Galaxy.jacobian_a21_from_grid`:
`-np.gradient(deflections.in_2d[:, :, 0], grid.in_2d[0, :, 1], axis=1)`. -/
def Galaxy.jacobian_a21_2d (g : Galaxy) (grid : Grid) (i j : ℕ) : ℚ :=
  -(npGradient (fun k => (g.deflections_in_2d grid i k).1) grid.xs grid.cols j)

/-- Entry (i,j) of `Galaxy.jacobian_a22_from_grid`:
`1 - np.gradient(deflections.in_2d[:, :, 0], grid.in_2d[:, 0, 0], axis=0)`. -/
def Galaxy.jacobian_a22_2d (g : Galaxy) (grid : Grid) (i j : ℕ) : ℚ :=
  1 - npGradient (fun k => (g.deflections_in_2d grid k j).1) grid.ys grid.rows i

/-- Embedding of `Galaxy.jacobian_a11_from_grid` (the 2d entries flattened
back to 1d by `array_from_sub_array_2d`). -/
def Galaxy.jacobian_a11_from_grid (g : Galaxy) (grid : Grid) : List ℚ :=
  grid.flatten2d (g.jacobian_a11_2d grid)

/-- Embedding of `Galaxy.jacobian_a12_from_grid`. -/
def Galaxy.jacobian_a12_from_grid (g : Galaxy) (grid : Grid) : List ℚ :=
  grid.flatten2d (g.jacobian_a12_2d grid)

/-- Embedding of `Galaxy.jacobian_a21_from_grid`. -/
def Galaxy.jacobian_a21_from_grid (g : Galaxy) (grid : Grid) : List ℚ :=
  grid.flatten2d (g.jacobian_a21_2d grid)

/-- Embedding of `Galaxy.jacobian_a22_from_grid`. -/
def Galaxy.jacobian_a22_from_grid (g : Galaxy) (grid : Grid) : List ℚ :=
  grid.flatten2d (g.jacobian_a22_2d grid)

/-- Embedding of `Galaxy.jacobian_from_grid`: the nested list
`[[a11, a12], [a21, a22]]`. -/
def Galaxy.jacobian_from_grid (g : Galaxy) (grid : Grid) : List (List (List ℚ)) :=
  [[g.jacobian_a11_from_grid grid, g.jacobian_a12_from_grid grid],
   [g.jacobian_a21_from_grid grid, g.jacobian_a22_from_grid grid]]

/-- Translation of `Galaxy.convergence_via_jacobian_from_grid` with the
grid's external `mapping.array_from_sub_array_1d` service kept abstract
as `remap` (the source applies it once, to `1 - 0.5 * (jacobian[0][0] +
jacobian[1][1])`). -/
def convergenceViaJacobianWithMap (remap : List ℚ → List ℚ) (g : Galaxy)
    (grid : Grid) : List ℚ :=
  remap (List.zipWith (fun a b => 1 - (1 / 2 : ℚ) * (a + b))
    (g.jacobian_a11_from_grid grid) (g.jacobian_a22_from_grid grid))

/-- Translation of `Galaxy.shear_via_jacobian_from_grid` with the
`array_from_sub_array_1d` service kept abstract as `remap`: the source
returns `remap((gamma_1 ** 2 + gamma_2 ** 2) ** 0.5)` with
`gamma_1 = 0.5 * (a22 - a11)` and `gamma_2 = -0.5 * (a12 + a21)`. -/
def shearViaJacobianWithMap (remap : List ℚ → List ℚ) (sqrtFn : ℚ → ℚ)
    (g : Galaxy) (grid : Grid) : List ℚ :=
  remap (List.zipWith (fun x y => sqrtFn (x ^ 2 + y ^ 2))
    (List.zipWith (fun a b => (1 / 2 : ℚ) * (a - b))
      (g.jacobian_a22_from_grid grid) (g.jacobian_a11_from_grid grid))
    (List.zipWith (fun a b => -(1 / 2 : ℚ) * (a + b))
      (g.jacobian_a12_from_grid grid) (g.jacobian_a21_from_grid grid)))

/-- Translation of `Galaxy.tangential_eigen_value_from_grid` with the
`array_from_sub_array_1d` service kept abstract as `remap`: the source
applies `remap` to its result `1 - convergence - shear`. -/
def tangentialEigenValueWithMap (remap : List ℚ → List ℚ) (sqrtFn : ℚ → ℚ)
    (g : Galaxy) (grid : Grid) : List ℚ :=
  remap (List.zipWith (fun c s => 1 - c - s)
    (convergenceViaJacobianWithMap remap g grid)
    (shearViaJacobianWithMap remap sqrtFn g grid))

/-- Translation of `Galaxy.radial_eigen_value_from_grid` with the
`array_from_sub_array_1d` service kept abstract as `remap`: the source
returns `1 - convergence + shear` directly, with no final `remap` call. -/
def radialEigenValueWithMap (remap : List ℚ → List ℚ) (sqrtFn : ℚ → ℚ)
    (g : Galaxy) (grid : Grid) : List ℚ :=
  List.zipWith (fun c s => 1 - c + s)
    (convergenceViaJacobianWithMap remap g grid)
    (shearViaJacobianWithMap remap sqrtFn g grid)

/-- Embedding of `Galaxy.convergence_via_jacobian_from_grid` (the
mapping service is value-preserving on real grids). -/
def Galaxy.convergence_via_jacobian_from_grid (g : Galaxy) (grid : Grid) :
    List ℚ :=
  convergenceViaJacobianWithMap id g grid

/-- Embedding of `Galaxy.shear_via_jacobian_from_grid`. -/
def Galaxy.shear_via_jacobian_from_grid (sqrtFn : ℚ → ℚ) (g : Galaxy)
    (grid : Grid) : List ℚ :=
  shearViaJacobianWithMap id sqrtFn g grid

/-- Embedding of `Galaxy.tangential_eigen_value_from_grid`. -/
def Galaxy.tangential_eigen_value_from_grid (sqrtFn : ℚ → ℚ) (g : Galaxy)
    (grid : Grid) : List ℚ :=
  tangentialEigenValueWithMap id sqrtFn g grid

/-- Embedding of `Galaxy.radial_eigen_value_from_grid`. -/
def Galaxy.radial_eigen_value_from_grid (sqrtFn : ℚ → ℚ) (g : Galaxy)
    (grid : Grid) : List ℚ :=
  radialEigenValueWithMap id sqrtFn g grid

/-- The external marching-squares contour tracer
(`skimage.measure.find_contours`), kept abstract: it receives the 2d
eigenvalue field (as its 1d value sequence plus the 2d shape) and the
contour level, and returns a list of pixel-space contours. -/
abbrev ContourTracer := List ℚ → ℕ × ℕ → ℚ → List (List (ℚ × ℚ))

/-- Embedding of `Galaxy.tangential_critical_curve_from_grid`: trace the
level-0 contours of the tangential eigenvalue field on its native 2d
layout; return `[]` when no contour is found, otherwise map only the
first contour back to physical coordinates. -/
def Galaxy.tangential_critical_curve_from_grid (tracer : ContourTracer)
    (sqrtFn : ℚ → ℚ) (g : Galaxy) (grid : Grid) : List (ℚ × ℚ) :=
  match tracer (g.tangential_eigen_value_from_grid sqrtFn grid)
      (grid.rows, grid.cols) 0 with
  | [] => []
  | c :: _ => grid.pixToArcsec c (grid.rows, grid.cols)

/-- Embedding of `Galaxy.radial_critical_curve_from_grid`. -/
def Galaxy.radial_critical_curve_from_grid (tracer : ContourTracer)
    (sqrtFn : ℚ → ℚ) (g : Galaxy) (grid : Grid) : List (ℚ × ℚ) :=
  match tracer (g.radial_eigen_value_from_grid sqrtFn grid)
      (grid.rows, grid.cols) 0 with
  | [] => []
  | c :: _ => grid.pixToArcsec c (grid.rows, grid.cols)

/-- Elementwise difference of two (y,x) coordinate lists (NumPy array
subtraction). -/
def subField2 : List (ℚ × ℚ) → List (ℚ × ℚ) → List (ℚ × ℚ) :=
  List.zipWith fun a b => (a.1 - b.1, a.2 - b.2)

/-- Embedding of `Galaxy.tangential_caustic_from_grid`: return `[]` when
the tangential critical curve is empty, otherwise subtract the galaxy's
deflections evaluated on the critical curve from the critical curve. -/
def Galaxy.tangential_caustic_from_grid (tracer : ContourTracer)
    (sqrtFn : ℚ → ℚ) (g : Galaxy) (grid : Grid) : List (ℚ × ℚ) :=
  if (g.tangential_critical_curve_from_grid tracer sqrtFn grid).length = 0 then
    []
  else
    subField2 (g.tangential_critical_curve_from_grid tracer sqrtFn grid)
      (g.deflections_from_grid
        (g.tangential_critical_curve_from_grid tracer sqrtFn grid))

/-- Embedding of `Galaxy.radial_caustic_from_grid`. -/
def Galaxy.radial_caustic_from_grid (tracer : ContourTracer)
    (sqrtFn : ℚ → ℚ) (g : Galaxy) (grid : Grid) : List (ℚ × ℚ) :=
  if (g.radial_critical_curve_from_grid tracer sqrtFn grid).length = 0 then
    []
  else
    subField2 (g.radial_critical_curve_from_grid tracer sqrtFn grid)
      (g.deflections_from_grid
        (g.radial_critical_curve_from_grid tracer sqrtFn grid))

/-- Embedding of `np.max` on a 1d array (undefined on an empty array;
the empty case carries the junk value 0). -/
def listMax : List ℚ → ℚ
  | [] => 0
  | x :: xs => xs.foldl max x

/-- Embedding of `HyperGalaxy.contribution_map_from_hyper_images`:
`np.divide(hyper_galaxy_image, np.add(hyper_model_image,
contribution_factor))`, then division of the result by its own maximum. -/
def HyperGalaxy.contribution_map_from_hyper_images (hg : HyperGalaxy)
    (hyper_model_image hyper_galaxy_image : List ℚ) : List ℚ :=
  (List.zipWith (fun gi mi => gi / (mi + hg.contribution_factor))
      hyper_galaxy_image hyper_model_image).map
    fun x => x / listMax (List.zipWith
      (fun gi mi => gi / (mi + hg.contribution_factor))
      hyper_galaxy_image hyper_model_image)

/-- Boolean success test for an `Except` value (Python: construction did
not raise). -/
def exceptIsOk {ε α : Type} : Except ε α → Bool
  | .ok _ => true
  | .error _ => false

/-- Concrete galaxy with a pixelization and a regularization tagged 1. -/
def cxGalaxyA : Galaxy :=
  ⟨(1 : ℚ) / 2, some ⟨1⟩, some ⟨1⟩, none, []⟩

/-- The same galaxy as `cxGalaxyA` except for its regularization. -/
def cxGalaxyB : Galaxy :=
  ⟨(1 : ℚ) / 2, some ⟨1⟩, some ⟨2⟩, none, []⟩

/-- Concrete mass profile with a non-trivial deflection field. -/
def c2MassProfile : MassProfile :=
  ⟨fun _ => 0, fun _ => 0, fun p => (p.1 * p.2, p.1 + p.2 * p.2),
   fun _ => 0, fun _ => 0, 0, 0, [3]⟩

/-- Concrete galaxy owning one mass profile. -/
def c2Galaxy : Galaxy :=
  ⟨1, none, none, none, [.mass c2MassProfile]⟩

/-- Concrete uniform 3x3 grid with unit physical spacing on both axes. -/
def c2Grid : Grid :=
  ⟨3, 3, fun i j => ((i : ℚ), (j : ℚ)), fun c _ => c⟩

/-- Concrete galaxy with no profiles (only scalar metadata attached). -/
def c3Galaxy : Galaxy :=
  ⟨2, none, none, none, [.scalar 7]⟩

/-- Concrete contour tracer that finds no zero-crossing. -/
def c4Tracer : ContourTracer :=
  fun _ _ _ => []

/-- Concrete galaxy with no mass profiles. -/
def c4Galaxy : Galaxy :=
  ⟨1, none, none, none, []⟩

/-- Concrete 2x2 grid. -/
def c4Grid : Grid :=
  ⟨2, 2, fun i j => ((i : ℚ), (j : ℚ)), fun c _ => c⟩

/-- Concrete contour tracer (no zero-crossing) for the caustic claim. -/
def c5Tracer : ContourTracer :=
  fun _ _ _ => []

/-- Concrete galaxy for the caustic claim. -/
def c5Galaxy : Galaxy :=
  ⟨1, none, none, none, [.mass c2MassProfile]⟩

/-- Concrete 2x2 grid for the caustic claim. -/
def c5Grid : Grid :=
  ⟨2, 2, fun i j => ((i : ℚ), (j : ℚ)), fun c _ => c⟩

/-- Concrete galaxy with redshift 0.5 and no profiles. -/
def c7Galaxy : Galaxy :=
  ⟨(1 : ℚ) / 2, none, none, none, []⟩

/-- Concrete hyper-galaxy with a negative contribution factor. -/
def cxHyper : HyperGalaxy :=
  ⟨-2, 0, 1⟩

/-- Concrete galaxy with no mass profiles for the eigenvalue-remap claim. -/
def c10Galaxy : Galaxy :=
  ⟨1, none, none, none, []⟩

/-- Concrete empty grid for the eigenvalue-remap claim. -/
def c10Grid : Grid :=
  ⟨0, 0, fun _ _ => (0, 0), fun c _ => c⟩

theorem map_const_replicate {α β : Type} (l : List α) (b : β) :
    (l.map fun _ => b) = List.replicate l.length b := by
  induction l with
  | nil => rfl
  | cons a l ih => simp [ih, List.replicate_succ]

theorem zipWith_map_same {α β γ δ : Type} (f : β → γ → δ) (g : α → β)
    (h : α → γ) (l : List α) :
    List.zipWith f (l.map g) (l.map h) = l.map fun a => f (g a) (h a) := by
  induction l with
  | nil => rfl
  | cons a l ih => simp [ih]

theorem getD_map_const {α β : Type} (l : List α) (k : ℕ) (c : β) :
    (l.map fun _ => c).getD k c = c := by
  induction l generalizing k with
  | nil => rfl
  | cons a l ih =>
    cases k with
    | zero => rfl
    | succ k => simp [ih k]

theorem flatten2d_getD (grid : Grid) (f : ℕ → ℕ → ℚ) (i j : ℕ)
    (hi : i < grid.rows) (hj : j < grid.cols) :
    (grid.flatten2d f).getD (i * grid.cols + j) 0 = f i j := by
  have hcols : 0 < grid.cols := lt_of_le_of_lt (Nat.zero_le j) hj
  have hk : i * grid.cols + j < grid.rows * grid.cols := by
    have h1 : i * grid.cols + j < (i + 1) * grid.cols := by
      have := Nat.add_lt_add_left hj (i * grid.cols)
      simpa [Nat.succ_mul] using this
    exact lt_of_lt_of_le h1 (Nat.mul_le_mul_right _ hi)
  have hlen : (grid.flatten2d f).length = grid.rows * grid.cols := by
    simp [Grid.flatten2d]
  rw [List.getD_eq_getElem _ _ (by rw [hlen]; exact hk)]
  unfold Grid.flatten2d
  rw [List.getElem_map, List.getElem_range]
  have hdiv : (i * grid.cols + j) / grid.cols = i := by
    rw [Nat.add_comm, Nat.add_mul_div_right _ _ hcols,
      Nat.div_eq_of_lt hj, Nat.zero_add]
  have hmod : (i * grid.cols + j) % grid.cols = j := by
    rw [Nat.add_comm, Nat.add_mul_mod_self_right, Nat.mod_eq_of_lt hj]
  rw [hdiv, hmod]

theorem npGradient_const (c : ℚ) (X : ℕ → ℚ) (n j : ℕ) :
    npGradient (fun _ => c) X n j = 0 := by
  unfold npGradient
  split
  · rfl
  · split
    · simp
    · split
      · simp
      · simp only []
        rw [show (X j - X (j - 1)) ^ 2 * c
            + ((X (j + 1) - X j) ^ 2 - (X j - X (j - 1)) ^ 2) * c
            - (X (j + 1) - X j) ^ 2 * c = 0 by ring]
        simp

theorem npGradient_uniform (F X : ℕ → ℚ) (n j : ℕ) (h : ℚ) (hn : 2 ≤ n)
    (hj : j < n) (hu : ∀ k, k < n - 1 → X (k + 1) - X k = h) (h0 : h ≠ 0) :
    npGradient F X n j = specCentralDiff F X n j := by
  unfold npGradient specCentralDiff
  have hn1 : ¬ n ≤ 1 := by omega
  rw [if_neg hn1, if_neg hn1]
  by_cases hj0 : j = 0
  · rw [if_pos hj0, if_pos hj0]
  rw [if_neg hj0, if_neg hj0]
  by_cases hjl : j = n - 1
  · rw [if_pos hjl, if_pos hjl]
  rw [if_neg hjl, if_neg hjl]
  have hd : X (j + 1) - X j = h := hu j (by omega)
  have hs : X j - X (j - 1) = h := by
    have := hu (j - 1) (by omega)
    rwa [Nat.sub_add_cancel (by omega)] at this
  have hsum : X (j + 1) - X (j - 1) = 2 * h := by
    have h1 := hd
    have h2 := hs
    linarith
  rw [hd, hs, hsum]
  have h2 : (2 : ℚ) * h ≠ 0 := by
    intro hc
    exact h0 (by linarith [hc])
  have hden : h * h * (h + h) ≠ 0 := by
    have he : h * h * (h + h) = 2 * h ^ 3 := by ring
    rw [he]
    exact mul_ne_zero two_ne_zero (pow_ne_zero 3 h0)
  rw [div_eq_div_iff hden h2]
  ring

theorem lightListBeq_iff (as bs : List LightProfile) :
    lightListBeq as bs = true ↔
      as.map LightProfile.params = bs.map LightProfile.params := by
  induction as generalizing bs with
  | nil =>
    cases bs with
    | nil => simp [lightListBeq]
    | cons b bs => simp [lightListBeq]
  | cons a as ih =>
    cases bs with
    | nil => simp [lightListBeq]
    | cons b bs => simp [lightListBeq, ih]

theorem massListBeq_iff (as bs : List MassProfile) :
    massListBeq as bs = true ↔
      as.map MassProfile.params = bs.map MassProfile.params := by
  induction as generalizing bs with
  | nil =>
    cases bs with
    | nil => simp [massListBeq]
    | cons b bs => simp [massListBeq]
  | cons a as ih =>
    cases bs with
    | nil => simp [massListBeq]
    | cons b bs => simp [massListBeq, ih]

theorem le_foldl_max (xs : List ℚ) (a : ℚ) : a ≤ xs.foldl max a := by
  induction xs generalizing a with
  | nil => exact le_refl a
  | cons x xs ih => exact le_trans (le_max_left a x) (ih (max a x))

theorem mem_le_foldl_max (xs : List ℚ) (a x : ℚ) (hx : x ∈ xs) :
    x ≤ xs.foldl max a := by
  induction xs generalizing a with
  | nil => cases hx
  | cons y ys ih =>
    rcases List.mem_cons.mp hx with h | h
    · subst h
      rw [List.foldl_cons]
      exact le_trans (le_max_right a x) (le_foldl_max ys (max a x))
    · exact ih (max a y) h

theorem foldl_max_mem (xs : List ℚ) (a : ℚ) :
    xs.foldl max a = a ∨ xs.foldl max a ∈ xs := by
  induction xs generalizing a with
  | nil => exact Or.inl rfl
  | cons y ys ih =>
    rcases ih (max a y) with h | h
    · rcases max_choice a y with hm | hm
      · exact Or.inl (by rw [List.foldl_cons, h, hm])
      · exact Or.inr (by rw [List.foldl_cons, h, hm]; exact List.mem_cons_self y ys)
    · exact Or.inr (List.mem_cons_of_mem y h)

theorem foldl_max_div (xs : List ℚ) (a M : ℚ) (hM : 0 < M) :
    (xs.map fun x => x / M).foldl max (a / M) = xs.foldl max a / M := by
  induction xs generalizing a with
  | nil => rfl
  | cons x xs ih =>
    simp only [List.map_cons, List.foldl_cons]
    rw [max_div_div_right hM.le a x, ih]

theorem listMax_mem (l : List ℚ) (h : l ≠ []) : listMax l ∈ l := by
  cases l with
  | nil => exact absurd rfl h
  | cons x xs =>
    rcases foldl_max_mem xs x with he | he
    · simp only [listMax]
      rw [he]
      exact List.mem_cons_self x xs
    · simp only [listMax]
      exact List.mem_cons_of_mem x he

theorem le_listMax (l : List ℚ) (x : ℚ) (hx : x ∈ l) : x ≤ listMax l := by
  cases l with
  | nil => cases hx
  | cons y ys =>
    rcases List.mem_cons.mp hx with h | h
    · exact h ▸ le_foldl_max ys y
    · exact mem_le_foldl_max ys y x h

theorem listMax_div_pos (l : List ℚ) (M : ℚ) (hM : 0 < M) (h : l ≠ []) :
    listMax (l.map fun x => x / M) = listMax l / M := by
  cases l with
  | nil => exact absurd rfl h
  | cons x xs => simp [listMax, foldl_max_div xs x M hM]

theorem zipWith_div_pos (cf : ℚ) (hcf : 0 ≤ cf) :
    ∀ as bs : List ℚ, (∀ x ∈ as, 0 < x) → (∀ x ∈ bs, 0 < x) →
      ∀ x ∈ List.zipWith (fun gi mi => gi / (mi + cf)) as bs, 0 < x := by
  intro as
  induction as with
  | nil => intro bs _ _ x hx; cases hx
  | cons a as ih =>
    intro bs ha hb x hx
    cases bs with
    | nil => cases hx
    | cons b bs =>
      rcases List.mem_cons.mp hx with h | h
      · subst h
        have hb0 : 0 < b + cf :=
          add_pos_of_pos_of_nonneg (hb b (List.mem_cons_self b bs)) hcf
        exact div_pos (ha a (List.mem_cons_self a as)) hb0
      · exact ih bs (fun y hy => ha y (List.mem_cons_of_mem a hy))
          (fun y hy => hb y (List.mem_cons_of_mem b hy)) x h

theorem no_mass_eigen (sqrtFn : ℚ → ℚ) (g : Galaxy) (grid : Grid)
    (hm : g.mass_profiles = []) (hsq : sqrtFn 0 = 0) :
    g.tangential_eigen_value_from_grid sqrtFn grid
        = List.replicate (grid.rows * grid.cols) 1 ∧
    g.radial_eigen_value_from_grid sqrtFn grid
        = List.replicate (grid.rows * grid.cols) 1 := by
  have hno : g.has_mass_profile = false := by
    simp [Galaxy.has_mass_profile, hm]
  have hdef : ∀ i j, g.deflections_in_2d grid i j = (0, 0) := by
    intro i j
    unfold Galaxy.deflections_in_2d Galaxy.deflections_from_grid
    rw [hno]
    simp only [Bool.false_eq_true, if_false]
    exact getD_map_const _ _ _
  have hrow2 : ∀ i, (fun k => (g.deflections_in_2d grid i k).2) = fun _ => (0 : ℚ) :=
    fun i => funext fun k => by rw [hdef]
  have hrow1 : ∀ i, (fun k => (g.deflections_in_2d grid i k).1) = fun _ => (0 : ℚ) :=
    fun i => funext fun k => by rw [hdef]
  have hcol2 : ∀ j, (fun k => (g.deflections_in_2d grid k j).2) = fun _ => (0 : ℚ) :=
    fun j => funext fun k => by rw [hdef]
  have hcol1 : ∀ j, (fun k => (g.deflections_in_2d grid k j).1) = fun _ => (0 : ℚ) :=
    fun j => funext fun k => by rw [hdef]
  have l11 : g.jacobian_a11_from_grid grid
      = (List.range (grid.rows * grid.cols)).map fun _ => (1 : ℚ) := by
    unfold Galaxy.jacobian_a11_from_grid Grid.flatten2d
    refine List.map_congr_left fun k _ => ?_
    unfold Galaxy.jacobian_a11_2d
    rw [hrow2, npGradient_const]
    norm_num
  have l12 : g.jacobian_a12_from_grid grid
      = (List.range (grid.rows * grid.cols)).map fun _ => (0 : ℚ) := by
    unfold Galaxy.jacobian_a12_from_grid Grid.flatten2d
    refine List.map_congr_left fun k _ => ?_
    unfold Galaxy.jacobian_a12_2d
    rw [hcol2, npGradient_const]
    norm_num
  have l21 : g.jacobian_a21_from_grid grid
      = (List.range (grid.rows * grid.cols)).map fun _ => (0 : ℚ) := by
    unfold Galaxy.jacobian_a21_from_grid Grid.flatten2d
    refine List.map_congr_left fun k _ => ?_
    unfold Galaxy.jacobian_a21_2d
    rw [hrow1, npGradient_const]
    norm_num
  have l22 : g.jacobian_a22_from_grid grid
      = (List.range (grid.rows * grid.cols)).map fun _ => (1 : ℚ) := by
    unfold Galaxy.jacobian_a22_from_grid Grid.flatten2d
    refine List.map_congr_left fun k _ => ?_
    unfold Galaxy.jacobian_a22_2d
    rw [hcol1, npGradient_const]
    norm_num
  have hconv : convergenceViaJacobianWithMap id g grid
      = (List.range (grid.rows * grid.cols)).map fun _ => (0 : ℚ) := by
    unfold convergenceViaJacobianWithMap
    rw [l11, l22, zipWith_map_same]
    simp only [id]
    exact List.map_congr_left fun k _ => by norm_num
  have hshear : shearViaJacobianWithMap id sqrtFn g grid
      = (List.range (grid.rows * grid.cols)).map fun _ => (0 : ℚ) := by
    unfold shearViaJacobianWithMap
    rw [l11, l12, l21, l22, zipWith_map_same, zipWith_map_same, zipWith_map_same]
    simp only [id]
    refine List.map_congr_left fun k _ => ?_
    norm_num [hsq]
  constructor
  · unfold Galaxy.tangential_eigen_value_from_grid tangentialEigenValueWithMap
    rw [hconv, hshear, zipWith_map_same]
    simp only [id]
    rw [show ((List.range (grid.rows * grid.cols)).map fun _ => 1 - (0 : ℚ) - 0)
        = (List.range (grid.rows * grid.cols)).map fun _ => (1 : ℚ) from
      List.map_congr_left fun k _ => by norm_num]
    rw [map_const_replicate, List.length_range]
  · unfold Galaxy.radial_eigen_value_from_grid radialEigenValueWithMap
    rw [hconv, hshear, zipWith_map_same]
    rw [show ((List.range (grid.rows * grid.cols)).map fun _ => 1 - (0 : ℚ) + 0)
        = (List.range (grid.rows * grid.cols)).map fun _ => (1 : ℚ) from
      List.map_congr_left fun k _ => by norm_num]
    rw [map_const_replicate, List.length_range]

/-- C1 (counterexample): `Galaxy.__eq__` does not compare
`regularization`: `cxGalaxyA` and `cxGalaxyB` differ only in their
regularization yet compare equal, so equality is not the stated
conjunction over redshift, pixelization, regularization, hyper_galaxy and
the two profile lists. -/
theorem galaxy_eq_ignores_regularization_cx :
    galaxyEqB cxGalaxyA cxGalaxyB = true ∧
    cxGalaxyA.regularization ≠ cxGalaxyB.regularization ∧
    ¬ (galaxyEqB cxGalaxyA cxGalaxyB = true ↔
        (cxGalaxyA.redshift = cxGalaxyB.redshift ∧
         cxGalaxyA.pixelization = cxGalaxyB.pixelization ∧
         cxGalaxyA.regularization = cxGalaxyB.regularization ∧
         cxGalaxyA.hyper_galaxy = cxGalaxyB.hyper_galaxy ∧
         cxGalaxyA.light_profiles.map LightProfile.params
           = cxGalaxyB.light_profiles.map LightProfile.params ∧
         cxGalaxyA.mass_profiles.map MassProfile.params
           = cxGalaxyB.mass_profiles.map MassProfile.params)) := by
  have hA : galaxyEqB cxGalaxyA cxGalaxyB = true := by
    simp [galaxyEqB, cxGalaxyA, cxGalaxyB, Galaxy.light_profiles,
      Galaxy.mass_profiles, lightListBeq, massListBeq]
  have hB : cxGalaxyA.regularization ≠ cxGalaxyB.regularization := by
    norm_num [cxGalaxyA, cxGalaxyB]
  exact ⟨hA, hB, fun h => hB (h.mp hA).2.2.1⟩

/-- C1 (amended): two galaxies compare equal under `Galaxy.__eq__` iff
their pixelization, redshift, hyper_galaxy and the full ordered lists of
light and mass profiles are equal by value — `regularization` is not
compared, so two galaxies that differ only in regularization are equal. -/
theorem galaxy_eq_value_characterization (g o : Galaxy) :
    (galaxyEqB g o = true ↔
      (g.pixelization = o.pixelization ∧ g.redshift = o.redshift ∧
       g.hyper_galaxy = o.hyper_galaxy ∧
       g.light_profiles.map LightProfile.params
         = o.light_profiles.map LightProfile.params ∧
       g.mass_profiles.map MassProfile.params
         = o.mass_profiles.map MassProfile.params)) ∧
    (g.redshift = o.redshift → g.pixelization = o.pixelization →
      g.hyper_galaxy = o.hyper_galaxy → g.components = o.components →
      galaxyEqB g o = true) := by
  constructor
  · simp [galaxyEqB, Bool.and_eq_true, decide_eq_true_eq, lightListBeq_iff,
      massListBeq_iff, and_assoc]
  · intro h1 h2 h3 h4
    simp [galaxyEqB, Bool.and_eq_true, decide_eq_true_eq, lightListBeq_iff,
      massListBeq_iff, h1, h2, h3, Galaxy.light_profiles,
      Galaxy.mass_profiles, h4]

/-- C1 (witness): the amended characterization applied to the two
concrete galaxies that differ only in regularization. -/
theorem galaxy_eq_value_characterization_witness :
    galaxyEqB cxGalaxyA cxGalaxyB = true :=
  (galaxy_eq_value_characterization cxGalaxyA cxGalaxyB).2 rfl rfl rfl rfl

/-- C3: a galaxy with no light profiles yields an all-zero profile image
of the grid's length, and a galaxy with no mass profiles yields all-zero
convergence, potential and (y,x) deflection fields of the grid's length;
none of these fail. -/
theorem zero_profile_zero_fields (g : Galaxy) (pts : List (ℚ × ℚ)) :
    (g.light_profiles = [] →
      g.profile_image_from_grid pts = List.replicate pts.length 0) ∧
    (g.mass_profiles = [] →
      g.convergence_from_grid pts = List.replicate pts.length 0 ∧
      g.potential_from_grid pts = List.replicate pts.length 0 ∧
      g.deflections_from_grid pts = List.replicate pts.length (0, 0)) := by
  constructor
  · intro h
    have hf : g.has_light_profile = false := by
      simp [Galaxy.has_light_profile, h]
    simp [Galaxy.profile_image_from_grid, hf, map_const_replicate]
  · intro h
    have hf : g.has_mass_profile = false := by
      simp [Galaxy.has_mass_profile, h]
    exact ⟨by simp [Galaxy.convergence_from_grid, hf, map_const_replicate],
      by simp [Galaxy.potential_from_grid, hf, map_const_replicate],
      by simp [Galaxy.deflections_from_grid, hf, map_const_replicate]⟩

/-- C3 (witness): the zero-fallbacks evaluated on a concrete profile-free
galaxy (carrying only scalar metadata) and a concrete two-point grid. -/
theorem zero_profile_zero_fields_witness :
    c3Galaxy.profile_image_from_grid [(0, 0), (1, 2)] = List.replicate 2 0 ∧
    c3Galaxy.convergence_from_grid [(0, 0), (1, 2)] = List.replicate 2 0 ∧
    c3Galaxy.potential_from_grid [(0, 0), (1, 2)] = List.replicate 2 0 ∧
    c3Galaxy.deflections_from_grid [(0, 0), (1, 2)]
      = List.replicate 2 (0, 0) := by
  obtain ⟨a, b, c⟩ :=
    (zero_profile_zero_fields c3Galaxy [(0, 0), (1, 2)]).2 rfl
  exact ⟨(zero_profile_zero_fields c3Galaxy [(0, 0), (1, 2)]).1 rfl, a, b, c⟩

/-- C6: constructing a galaxy succeeds exactly when pixelization and
regularization are both present or both absent; a lone pixelization or a
lone regularization raises the domain-specific `GalaxyException`. -/
theorem galaxy_make_pixelization_regularization_pair (r : ℚ)
    (p : Option Pixelization) (reg : Option Regularization)
    (hg : Option HyperGalaxy) (cs : List GalaxyComponent) :
    (exceptIsOk (Galaxy.make r p reg hg cs) = true ↔ p.isSome = reg.isSome) ∧
    (p.isSome = true → reg = none →
      Galaxy.make r p reg hg cs = .error .pixelizationWithoutRegularization) ∧
    (p = none → reg.isSome = true →
      Galaxy.make r p reg hg cs = .error .regularizationWithoutPixelization) ∧
    (p.isSome = reg.isSome →
      Galaxy.make r p reg hg cs = .ok ⟨r, p, reg, hg, cs⟩) := by
  cases p <;> cases reg <;> simp [Galaxy.make, exceptIsOk]

/-- C6 (witness): the construction outcomes at the four concrete
pixelization/regularization combinations. -/
theorem galaxy_make_pixelization_regularization_pair_witness :
    Galaxy.make 1 (some ⟨1⟩) none none []
      = .error .pixelizationWithoutRegularization ∧
    Galaxy.make 1 none (some ⟨1⟩) none []
      = .error .regularizationWithoutPixelization ∧
    Galaxy.make 1 (some ⟨1⟩) (some ⟨1⟩) none []
      = .ok ⟨1, some ⟨1⟩, some ⟨1⟩, none, []⟩ ∧
    Galaxy.make 1 none none none [] = .ok ⟨1, none, none, none, []⟩ :=
  ⟨(galaxy_make_pixelization_regularization_pair 1 (some ⟨1⟩) none none
      []).2.1 rfl rfl,
   (galaxy_make_pixelization_regularization_pair 1 none (some ⟨1⟩) none
      []).2.2.1 rfl rfl,
   (galaxy_make_pixelization_regularization_pair 1 (some ⟨1⟩) (some ⟨1⟩)
      none []).2.2.2 rfl,
   (galaxy_make_pixelization_regularization_pair 1 none none none
      []).2.2.2 rfl⟩

/-- C7: with no mass profiles, all four mass-integral methods return the
`None` sentinel, which is distinct from a measured zero; likewise the
luminosity methods with no light profiles. -/
theorem no_profile_sentinel (g : Galaxy) (r a : ℚ) :
    (g.mass_profiles = [] →
      g.mass_within_circle_in_units r = none ∧
      g.mass_within_ellipse_in_units a = none ∧
      g.einstein_radius_in_units = none ∧
      g.einstein_mass_in_units = none ∧
      g.mass_within_circle_in_units r ≠ some 0) ∧
    (g.light_profiles = [] →
      g.luminosity_within_circle_in_units r = none ∧
      g.luminosity_within_ellipse_in_units a = none ∧
      g.luminosity_within_circle_in_units r ≠ some 0) := by
  constructor
  · intro h
    have hf : g.has_mass_profile = false := by
      simp [Galaxy.has_mass_profile, h]
    refine ⟨?_, ?_, ?_, ?_, ?_⟩ <;>
      simp [Galaxy.mass_within_circle_in_units,
        Galaxy.mass_within_ellipse_in_units, Galaxy.einstein_radius_in_units,
        Galaxy.einstein_mass_in_units, hf]
  · intro h
    have hf : g.has_light_profile = false := by
      simp [Galaxy.has_light_profile, h]
    refine ⟨?_, ?_, ?_⟩ <;>
      simp [Galaxy.luminosity_within_circle_in_units,
        Galaxy.luminosity_within_ellipse_in_units, hf]

/-- C7 (witness): a galaxy with redshift 0.5 and no profiles, queried for
the mass within a circle of radius 1, returns the sentinel and not 0. -/
theorem no_profile_sentinel_witness :
    c7Galaxy.redshift = 1 / 2 ∧
    c7Galaxy.mass_within_circle_in_units 1 = none ∧
    c7Galaxy.mass_within_circle_in_units 1 ≠ some 0 ∧
    c7Galaxy.luminosity_within_circle_in_units 1 = none := by
  have h := no_profile_sentinel c7Galaxy 1 1
  exact ⟨rfl, (h.1 rfl).1, (h.1 rfl).2.2.2.2, (h.2 rfl).1⟩

/-- C9: comparing a galaxy with a non-Galaxy operand raises
`AttributeError` instead of returning `False`, because the source
evaluates all five comparison operands eagerly (a tuple passed to `all`)
and the attribute lookups fail; on a Galaxy operand the comparison
returns the value conjunction. -/
theorem galaxy_eq_non_galaxy_attribute_error (g : Galaxy) (q : ℚ) :
    galaxyEqDunder g (.nonGalaxy q) = .error .attributeError ∧
    galaxyEqDunder g (.nonGalaxy q) ≠ .ok false ∧
    ∀ h : Galaxy, galaxyEqDunder g (.galaxy h) = .ok (galaxyEqB g h) := by
  refine ⟨rfl, ?_, fun h => rfl⟩
  intro hc
  exact Except.noConfusion
    ((rfl : galaxyEqDunder g (.nonGalaxy q)
        = .error .attributeError).symm.trans hc)

/-- C2: for a galaxy with a mass profile on a grid with uniform physical
spacing hx, hy per axis (the actual coordinate values, not index
spacing), `jacobian_from_grid` returns `[[a11, a12], [a21, a22]]`, and at
every 2d position (i, j) the four entries equal `1 - d(alpha_x)/dx`,
`-d(alpha_x)/dy`, `-d(alpha_y)/dx`, `1 - d(alpha_y)/dy`, where each
partial derivative is the central-difference gradient of the deflection
field against the grid's coordinate values along that axis, on the
grid's native 2D layout. -/
theorem jacobian_entries_central_difference (g : Galaxy) (grid : Grid)
    (hx hy : ℚ) (i j : ℕ)
    (hmass : g.has_mass_profile = true)
    (hrows : 2 ≤ grid.rows) (hcols : 2 ≤ grid.cols)
    (hi : i < grid.rows) (hj : j < grid.cols)
    (hux : ∀ k, k < grid.cols - 1 → grid.xs (k + 1) - grid.xs k = hx)
    (huy : ∀ k, k < grid.rows - 1 → grid.ys (k + 1) - grid.ys k = hy)
    (hx0 : hx ≠ 0) (hy0 : hy ≠ 0) :
    g.jacobian_from_grid grid
        = [[g.jacobian_a11_from_grid grid, g.jacobian_a12_from_grid grid],
           [g.jacobian_a21_from_grid grid, g.jacobian_a22_from_grid grid]] ∧
    (g.jacobian_a11_from_grid grid).getD (i * grid.cols + j) 0
        = 1 - specCentralDiff (fun k => (g.deflections_in_2d grid i k).2)
            grid.xs grid.cols j ∧
    (g.jacobian_a12_from_grid grid).getD (i * grid.cols + j) 0
        = -specCentralDiff (fun k => (g.deflections_in_2d grid k j).2)
            grid.ys grid.rows i ∧
    (g.jacobian_a21_from_grid grid).getD (i * grid.cols + j) 0
        = -specCentralDiff (fun k => (g.deflections_in_2d grid i k).1)
            grid.xs grid.cols j ∧
    (g.jacobian_a22_from_grid grid).getD (i * grid.cols + j) 0
        = 1 - specCentralDiff (fun k => (g.deflections_in_2d grid k j).1)
            grid.ys grid.rows i := by
  refine ⟨rfl, ?_, ?_, ?_, ?_⟩
  · unfold Galaxy.jacobian_a11_from_grid
    rw [flatten2d_getD grid _ i j hi hj]
    unfold Galaxy.jacobian_a11_2d
    rw [npGradient_uniform _ grid.xs grid.cols j hx hcols hj hux hx0]
  · unfold Galaxy.jacobian_a12_from_grid
    rw [flatten2d_getD grid _ i j hi hj]
    unfold Galaxy.jacobian_a12_2d
    rw [npGradient_uniform _ grid.ys grid.rows i hy hrows hi huy hy0]
  · unfold Galaxy.jacobian_a21_from_grid
    rw [flatten2d_getD grid _ i j hi hj]
    unfold Galaxy.jacobian_a21_2d
    rw [npGradient_uniform _ grid.xs grid.cols j hx hcols hj hux hx0]
  · unfold Galaxy.jacobian_a22_from_grid
    rw [flatten2d_getD grid _ i j hi hj]
    unfold Galaxy.jacobian_a22_2d
    rw [npGradient_uniform _ grid.ys grid.rows i hy hrows hi huy hy0]

/-- C2 (witness): the Jacobian entries at the interior point (1, 1) of a
concrete uniform 3x3 grid, for a concrete galaxy with one mass profile. -/
theorem jacobian_entries_central_difference_witness :
    c2Galaxy.has_mass_profile = true ∧
    (c2Galaxy.jacobian_a11_from_grid c2Grid).getD (1 * c2Grid.cols + 1) 0
        = 1 - specCentralDiff
            (fun k => (c2Galaxy.deflections_in_2d c2Grid 1 k).2)
            c2Grid.xs c2Grid.cols 1 ∧
    (c2Galaxy.jacobian_a22_from_grid c2Grid).getD (1 * c2Grid.cols + 1) 0
        = 1 - specCentralDiff
            (fun k => (c2Galaxy.deflections_in_2d c2Grid k 1).1)
            c2Grid.ys c2Grid.rows 1 := by
  have h := jacobian_entries_central_difference c2Galaxy c2Grid 1 1 1 1
    rfl (by norm_num [c2Grid]) (by norm_num [c2Grid])
    (by norm_num [c2Grid]) (by norm_num [c2Grid])
    (by intro k _; simp only [c2Grid, Grid.xs]; push_cast; ring)
    (by intro k _; simp only [c2Grid, Grid.ys]; push_cast; ring)
    (by norm_num) (by norm_num)
  exact ⟨rfl, h.2.1, h.2.2.2.2⟩

/-- C4: both critical-curve extractors return the empty curve (as a
value, not an error) when the contour tracer finds no contour, and
otherwise use only the first contour the tracer returns, mapped through
the grid's pixel-to-physical transform; moreover, on a galaxy with no
mass profiles (a uniform-zero mass distribution) both eigenvalue fields
are the constant 1, so a zero-crossing tracer finds nothing. -/
theorem critical_curves_use_first_contour (tracer : ContourTracer)
    (sqrtFn : ℚ → ℚ) (g : Galaxy) (grid : Grid) (hsq : sqrtFn 0 = 0) :
    (tracer (g.tangential_eigen_value_from_grid sqrtFn grid)
        (grid.rows, grid.cols) 0 = [] →
      g.tangential_critical_curve_from_grid tracer sqrtFn grid = []) ∧
    (∀ c cs, tracer (g.tangential_eigen_value_from_grid sqrtFn grid)
        (grid.rows, grid.cols) 0 = c :: cs →
      g.tangential_critical_curve_from_grid tracer sqrtFn grid
        = grid.pixToArcsec c (grid.rows, grid.cols)) ∧
    (tracer (g.radial_eigen_value_from_grid sqrtFn grid)
        (grid.rows, grid.cols) 0 = [] →
      g.radial_critical_curve_from_grid tracer sqrtFn grid = []) ∧
    (∀ c cs, tracer (g.radial_eigen_value_from_grid sqrtFn grid)
        (grid.rows, grid.cols) 0 = c :: cs →
      g.radial_critical_curve_from_grid tracer sqrtFn grid
        = grid.pixToArcsec c (grid.rows, grid.cols)) ∧
    (g.mass_profiles = [] →
      g.tangential_eigen_value_from_grid sqrtFn grid
          = List.replicate (grid.rows * grid.cols) 1 ∧
      g.radial_eigen_value_from_grid sqrtFn grid
          = List.replicate (grid.rows * grid.cols) 1) := by
  refine ⟨?_, ?_, ?_, ?_, fun hm => no_mass_eigen sqrtFn g grid hm hsq⟩
  · intro h
    unfold Galaxy.tangential_critical_curve_from_grid
    rw [h]
  · intro c cs h
    unfold Galaxy.tangential_critical_curve_from_grid
    rw [h]
  · intro h
    unfold Galaxy.radial_critical_curve_from_grid
    rw [h]
  · intro c cs h
    unfold Galaxy.radial_critical_curve_from_grid
    rw [h]

/-- C4 (witness): a tracer that finds no zero-crossing yields empty
critical curves on a concrete no-mass galaxy, whose tangential eigenvalue
field is the constant-1 field. -/
theorem critical_curves_use_first_contour_witness :
    (fun x : ℚ => x) 0 = 0 ∧
    c4Galaxy.tangential_critical_curve_from_grid c4Tracer (fun x => x)
        c4Grid = [] ∧
    c4Galaxy.radial_critical_curve_from_grid c4Tracer (fun x => x)
        c4Grid = [] ∧
    c4Galaxy.tangential_eigen_value_from_grid (fun x => x) c4Grid
        = List.replicate (c4Grid.rows * c4Grid.cols) 1 := by
  have h := critical_curves_use_first_contour c4Tracer (fun x => x)
    c4Galaxy c4Grid rfl
  exact ⟨rfl, h.1 rfl, h.2.2.1 rfl, (h.2.2.2.2 rfl).1⟩

/-- C5: each caustic equals the corresponding critical curve minus the
galaxy's deflections evaluated on that critical curve, and an empty
critical curve yields an empty caustic (returned as a value). -/
theorem caustics_subtract_deflections (tracer : ContourTracer)
    (sqrtFn : ℚ → ℚ) (g : Galaxy) (grid : Grid) :
    (g.tangential_caustic_from_grid tracer sqrtFn grid
      = subField2 (g.tangential_critical_curve_from_grid tracer sqrtFn grid)
          (g.deflections_from_grid
            (g.tangential_critical_curve_from_grid tracer sqrtFn grid))) ∧
    (g.tangential_critical_curve_from_grid tracer sqrtFn grid = [] →
      g.tangential_caustic_from_grid tracer sqrtFn grid = []) ∧
    (g.radial_caustic_from_grid tracer sqrtFn grid
      = subField2 (g.radial_critical_curve_from_grid tracer sqrtFn grid)
          (g.deflections_from_grid
            (g.radial_critical_curve_from_grid tracer sqrtFn grid))) ∧
    (g.radial_critical_curve_from_grid tracer sqrtFn grid = [] →
      g.radial_caustic_from_grid tracer sqrtFn grid = []) := by
  refine ⟨?_, ?_, ?_, ?_⟩
  · unfold Galaxy.tangential_caustic_from_grid
    by_cases hcc :
        (g.tangential_critical_curve_from_grid tracer sqrtFn grid).length = 0
    · rw [if_pos hcc, List.length_eq_zero.mp hcc]
      rfl
    · rw [if_neg hcc]
  · intro h
    unfold Galaxy.tangential_caustic_from_grid
    rw [h]
    rfl
  · unfold Galaxy.radial_caustic_from_grid
    by_cases hcc :
        (g.radial_critical_curve_from_grid tracer sqrtFn grid).length = 0
    · rw [if_pos hcc, List.length_eq_zero.mp hcc]
      rfl
    · rw [if_neg hcc]
  · intro h
    unfold Galaxy.radial_caustic_from_grid
    rw [h]
    rfl

/-- C5 (witness): with a tracer that finds no contour, both critical
curves are empty and both caustics are empty, with no exception. -/
theorem caustics_subtract_deflections_witness :
    c5Galaxy.tangential_caustic_from_grid c5Tracer (fun x => x) c5Grid = [] ∧
    c5Galaxy.radial_caustic_from_grid c5Tracer (fun x => x) c5Grid = [] := by
  have h := caustics_subtract_deflections c5Tracer (fun x => x) c5Galaxy c5Grid
  exact ⟨h.2.1 rfl, h.2.2.2 rfl⟩

/-- C8 (counterexample): the contribution map of a hyper-galaxy with a
negative contribution factor, on the positive arrays `[1, 3]` and
`[1, 1]`, contains the entry -1, so its range is not contained in
`[0, 1]` even though both image arrays have positive entries. -/
theorem contribution_map_unit_interval_cx :
    (∀ x ∈ [(1 : ℚ), 3], 0 < x) ∧ (∀ x ∈ [(1 : ℚ), 1], 0 < x) ∧
    cxHyper.contribution_map_from_hyper_images [1, 3] [1, 1] = [-1, 1] ∧
    ¬ ((∀ x ∈ cxHyper.contribution_map_from_hyper_images [1, 3] [1, 1],
          0 ≤ x ∧ x ≤ 1) ∧
        listMax (cxHyper.contribution_map_from_hyper_images [1, 3] [1, 1])
          = 1) := by
  have hmap : cxHyper.contribution_map_from_hyper_images [1, 3] [1, 1]
      = [-1, 1] := by
    unfold HyperGalaxy.contribution_map_from_hyper_images
    norm_num [cxHyper, listMax]
  refine ⟨?_, ?_, hmap, fun hcl => ?_⟩
  · intro x hx
    simp only [List.mem_cons, List.mem_singleton, List.not_mem_nil,
      or_false] at hx
    rcases hx with rfl | rfl <;> norm_num
  · intro x hx
    simp only [List.mem_cons, List.mem_singleton, List.not_mem_nil,
      or_false] at hx
    rcases hx with rfl | rfl <;> norm_num
  · have hneg := (hcl.1 (-1) (by rw [hmap]; simp)).1
    norm_num at hneg

/-- C8 (amended): for a nonnegative contribution factor and nonempty,
equal-length, entrywise-positive hyper images, every entry of the
contribution map lies in [0, 1] and its maximum is exactly 1. -/
theorem contribution_map_unit_interval (hg : HyperGalaxy)
    (hyper_model_image hyper_galaxy_image : List ℚ)
    (hcf : 0 ≤ hg.contribution_factor)
    (hne : hyper_galaxy_image ≠ [])
    (hlen : hyper_model_image.length = hyper_galaxy_image.length)
    (hmpos : ∀ x ∈ hyper_model_image, 0 < x)
    (hgpos : ∀ x ∈ hyper_galaxy_image, 0 < x) :
    (∀ x ∈ hg.contribution_map_from_hyper_images hyper_model_image
        hyper_galaxy_image, 0 ≤ x ∧ x ≤ 1) ∧
    listMax (hg.contribution_map_from_hyper_images hyper_model_image
        hyper_galaxy_image) = 1 := by
  unfold HyperGalaxy.contribution_map_from_hyper_images
  set r := List.zipWith (fun gi mi => gi / (mi + hg.contribution_factor))
      hyper_galaxy_image hyper_model_image with hr
  have hrne : r ≠ [] := by
    cases hyper_galaxy_image with
    | nil => exact absurd rfl hne
    | cons a as =>
      cases hyper_model_image with
      | nil => simp at hlen
      | cons b bs => simp [hr]
  have hrpos : ∀ x ∈ r, 0 < x :=
    zipWith_div_pos hg.contribution_factor hcf hyper_galaxy_image
      hyper_model_image hgpos hmpos
  have hM : 0 < listMax r := hrpos _ (listMax_mem r hrne)
  constructor
  · intro x hx
    obtain ⟨y, hy, rfl⟩ := List.mem_map.mp hx
    exact ⟨le_of_lt (div_pos (hrpos y hy) hM),
      (div_le_one hM).mpr (le_listMax r y hy)⟩
  · rw [listMax_div_pos r (listMax r) hM hrne, div_self (ne_of_gt hM)]

/-- C8 (witness): the amended bound evaluated at a concrete hyper-galaxy
with zero contribution factor and singleton positive hyper images. -/
theorem contribution_map_unit_interval_witness :
    (0 : ℚ) ≤ (HyperGalaxy.mk 0 0 1).contribution_factor ∧
    (∀ x ∈ (HyperGalaxy.mk 0 0 1).contribution_map_from_hyper_images [2] [1],
        0 ≤ x ∧ x ≤ 1) ∧
    listMax ((HyperGalaxy.mk 0 0 1).contribution_map_from_hyper_images
        [2] [1]) = 1 := by
  have h := contribution_map_unit_interval (HyperGalaxy.mk 0 0 1) [2] [1]
    le_rfl (by simp) rfl
    (by intro x hx; rw [List.mem_singleton] at hx; subst hx; norm_num)
    (by intro x hx; rw [List.mem_singleton] at hx; subst hx; norm_num)
  exact ⟨le_rfl, h.1, h.2⟩

/-- C10: `radial_eigen_value_from_grid` returns `1 - convergence + shear`
directly, while `tangential_eigen_value_from_grid` passes its result
`1 - convergence - shear` through the grid's `array_from_sub_array_1d`
remapping service; with the remapping service kept abstract, the two
methods demonstrably do not apply the same output transformation. -/
theorem radial_eigen_value_skips_final_remap (remap : List ℚ → List ℚ)
    (sqrtFn : ℚ → ℚ) (g : Galaxy) (grid : Grid) :
    (radialEigenValueWithMap remap sqrtFn g grid
      = List.zipWith (fun c s => 1 - c + s)
          (convergenceViaJacobianWithMap remap g grid)
          (shearViaJacobianWithMap remap sqrtFn g grid)) ∧
    (tangentialEigenValueWithMap remap sqrtFn g grid
      = remap (List.zipWith (fun c s => 1 - c - s)
          (convergenceViaJacobianWithMap remap g grid)
          (shearViaJacobianWithMap remap sqrtFn g grid))) ∧
    (g.radial_eigen_value_from_grid sqrtFn grid
      = radialEigenValueWithMap id sqrtFn g grid) ∧
    (g.tangential_eigen_value_from_grid sqrtFn grid
      = tangentialEigenValueWithMap id sqrtFn g grid) ∧
    (radialEigenValueWithMap (fun l => 0 :: l) (fun x => x)
        c10Galaxy c10Grid
      ≠ (fun l => (0 : ℚ) :: l)
          (List.zipWith (fun c s => 1 - c + s)
            (convergenceViaJacobianWithMap (fun l => 0 :: l)
              c10Galaxy c10Grid)
            (shearViaJacobianWithMap (fun l => 0 :: l) (fun x => x)
              c10Galaxy c10Grid))) := by
  refine ⟨rfl, rfl, rfl, rfl, ?_⟩
  intro hcontra
  have e1 : radialEigenValueWithMap (fun l => 0 :: l) (fun x => x)
      c10Galaxy c10Grid = [1 - 0 + 0] := rfl
  have e2 : (fun l => (0 : ℚ) :: l)
      (List.zipWith (fun c s => 1 - c + s)
        (convergenceViaJacobianWithMap (fun l => 0 :: l) c10Galaxy c10Grid)
        (shearViaJacobianWithMap (fun l => 0 :: l) (fun x => x)
          c10Galaxy c10Grid)) = [0, 1 - 0 + 0] := rfl
  rw [e1, e2] at hcontra
  simp at hcontra
